import Mathlib

/-!
Shallow embedding of `modules/dreamview/backend/hmi/hmi_worker.cc` (Apollo
dreamview HMI worker).  Pure functions model the worker's operations as
state transitions over an explicit `WorkerState`; external collaborators
(filesystem mode configs, the chassis feedback stream, the vehicle-profile
switch) are oracles in an `Env` record; side effects (shell commands, KV
puts, pad messages, sleeps, write-guarded mutation sections) are recorded
in an event trace.  A process abort (`CHECK` failure / `AFATAL`) is
modelled by `Option`/a dedicated result constructor.
-/

namespace HMIW

/-- Driving modes of the `apollo.canbus.Chassis` proto used by the worker. -/
inductive DrivingMode
  | COMPLETE_MANUAL
  | COMPLETE_AUTO_DRIVE
  | AUTO_STEER_ONLY
  | AUTO_SPEED_ONLY
  | EMERGENCY_MODE
deriving DecidableEq, Repr

/-- Actions of the `apollo.control.PadMessage` proto (`DrivingAction`). -/
inductive DrivingAction
  | STOP
  | START
  | RESET
deriving DecidableEq, Repr

/-- `apollo.monitor.ComponentStatus` status enum. -/
inductive CStatus
  | UNKNOWN
  | OK
  | WARN
  | ERROR
  | FATAL
deriving DecidableEq, Repr

/-- Value of a monitored-component entry: status enum plus message
(the fields of `ComponentStatus` this file reads and writes). -/
structure ComponentSummary where
  status : CStatus
  message : String
deriving DecidableEq, Repr

/-- Proto3 default `ComponentStatus` value, inserted by
`status_.mutable_monitored_components()->insert({iter.first, {}})`. -/
def defaultSummary : ComponentSummary := { status := CStatus.UNKNOWN, message := "" }

/-- `Module` proto entry of an `HMIMode`: derived start/stop commands,
safety flag and process-monitor command keywords. -/
structure Module where
  start_command : String
  stop_command : String
  required_for_safety : Bool
  command_keywords : List String
deriving DecidableEq, Repr

instance : Inhabited Module :=
  ⟨{ start_command := "", stop_command := "", required_for_safety := false,
     command_keywords := [] }⟩

/-- `CyberModule` proto entry: dag files, process group (empty string when
absent, the proto3 default) and safety flag. -/
structure CyberModule where
  dag_files : List String
  process_group : String
  required_for_safety : Bool
deriving DecidableEq, Repr

/-- Parsed `HMIMode` proto as read from file, before
`LoadMode` translates `cyber_modules` into `modules`.  Only the key set of
`monitored_components` is read by the worker, so we keep the keys. -/
structure HMIModeProto where
  cyber_modules : List (String × CyberModule)
  modules : List (String × Module)
  monitored_components : List String
deriving DecidableEq, Repr

/-- Loaded `HMIMode` after translation (`cyber_modules` cleared). -/
structure HMIMode where
  modules : List (String × Module)
  monitored_components : List String
deriving DecidableEq, Repr

/-- `HMIConfig`: name → path dictionaries for modes, maps and vehicles. -/
structure HMIConfig where
  modes : List (String × String)
  maps : List (String × String)
  vehicles : List (String × String)
deriving DecidableEq, Repr

/-- The fields of the `HMIStatus` proto this worker mutates.  The
remaining fields (available mode/map/vehicle name lists, docker image,
UTM zone) are written once in `InitStatus` and never touched by the
operations modelled here. -/
structure HMIStatus where
  current_mode : String
  current_map : String
  current_vehicle : String
  modules : List (String × Bool)
  monitored_components : List (String × ComponentSummary)
deriving DecidableEq, Repr

/-- In-memory state of the `HMIWorker`: the read-only config, the
lock-protected status record, the currently loaded mode
(`current_mode_`), the dirty flag (`status_changed_`) and the static
`last_status_fingerprint` of the SystemStatus callback. -/
structure WorkerState where
  config : HMIConfig
  status : HMIStatus
  current_mode : HMIMode
  status_changed : Bool
  last_status_fingerprint : Nat
deriving DecidableEq, Repr

/-- Observable side effects of the worker, in program order. -/
inductive Event
  | system (cmd : String)
  | kvPut (key value : String)
  | sendPad (a : DrivingAction)
  | sleep (ms : Nat)
  | observe (sample : Option DrivingMode)
  | useVehicle (dir : String)
  | setGlobalFlag (flag value : String)
  | guardedWrite
deriving DecidableEq, Repr

/-- External collaborators: `GetProtoFromFile` on mode config paths, the
chassis reader's latest-observed driving mode per `Observe()` call
(indexed by a running sample counter; `none` = reader empty), and the
result of `VehicleManager::UseVehicle`. -/
structure Env where
  modeFiles : String → Option HMIModeProto
  chassisFeed : Nat → Option DrivingMode
  useVehicleOk : String → Bool

/-- `FLAGS_current_mode_db_key`. -/
def currentModeDbKey : String := "/apollo/hmi/status:current_mode"

/-!  Mode Loader (`HMIWorker::LoadMode`). -/

/-- The dag-file loop of start-command construction:
`for (dag : dag_files) StrAppend(&cmd, " -d ", dag)`. -/
def appendDagFlags (s : String) : List String → String
  | [] => s
  | dag :: rest => appendDagFlags (s ++ " -d " ++ dag) rest

/-- Start command: `nohup mainboard [-p <group>] -d <dag>... &`. -/
def startCommand (cm : CyberModule) : String :=
  appendDagFlags
    (if cm.process_group = "" then "nohup mainboard"
     else "nohup mainboard" ++ " -p " ++ cm.process_group)
    cm.dag_files ++ " &"

/-- Stop command: `pkill -f "<dag[0]>"`. -/
def stopCommand (firstDag : String) : String :=
  "pkill -f \"" ++ firstDag ++ "\""

/-- Field updates applied to the (`LookupOrInsert`ed) `Module` entry for
one `CyberModule`: overwrite safety flag and commands, append the two
process-monitor keywords. -/
def translateOne (old : Module) (cm : CyberModule) (firstDag : String) : Module :=
  { required_for_safety := cm.required_for_safety
    start_command := startCommand cm
    stop_command := stopCommand firstDag
    command_keywords := old.command_keywords ++ ["mainboard", firstDag] }

/-- `LookupOrInsert` followed by in-place update on an association list:
update the first entry with the given key, else append a default entry
and update it. -/
def updateOrInsert (f : Module → Module) :
    List (String × Module) → String → List (String × Module)
  | [], k => [(k, f default)]
  | (k', v) :: rest, k =>
    if k' = k then (k', f v) :: rest else (k', v) :: updateOrInsert f rest k

/-- Translation loop over `cyber_modules`; `none` models the fatal
`CHECK(!cyber_module.dag_files().empty())`. -/
def translateModules (ms : List (String × Module)) :
    List (String × CyberModule) → Option (List (String × Module))
  | [] => some ms
  | (name, cm) :: rest =>
    match cm.dag_files with
    | [] => none
    | firstDag :: _ =>
      translateModules (updateOrInsert (fun old => translateOne old cm firstDag) ms name) rest

/-- `HMIWorker::LoadMode` on an already-parsed proto; `none` models a
fatal `CHECK` failure during translation. -/
def LoadMode (proto : HMIModeProto) : Option HMIMode :=
  (translateModules proto.modules proto.cyber_modules).map
    (fun ms => { modules := ms, monitored_components := proto.monitored_components })

/-!  Module Process Manager. -/

/-- `HMIWorker::SetupMode`: start every module of the current mode. -/
def SetupMode (w : WorkerState) : List Event :=
  w.current_mode.modules.map (fun kv => Event.system kv.2.start_command)

/-- `HMIWorker::ResetMode`: stop every module of the current mode. -/
def ResetMode (w : WorkerState) : List Event :=
  w.current_mode.modules.map (fun kv => Event.system kv.2.stop_command)

/-- `HMIWorker::StartModule`: run the start command of a known module,
log-and-skip an unknown one. -/
def StartModule (w : WorkerState) (name : String) : List Event :=
  match (w.current_mode.modules).lookup name with
  | some m => [Event.system m.start_command]
  | none => []

/-- `HMIWorker::StopModule`. -/
def StopModule (w : WorkerState) (name : String) : List Event :=
  match (w.current_mode.modules).lookup name with
  | some m => [Event.system m.stop_command]
  | none => []

/-!  Mode Controller. -/

/-- `HMIWorker::ChangeMode`.  `none` models a process abort from the
fatal `CHECK`s inside `LoadMode` (file unreadable or empty dag list).
An unknown name (AERROR) and an unchanged name return with no effect;
otherwise the old mode is reset, the new mode loaded, and the status
record's mode name and module/component maps are rebuilt inside one
write-guarded mutation, followed by the KV-store put. -/
def ChangeMode (env : Env) (w : WorkerState) (mode_name : String) :
    Option (WorkerState × List Event) :=
  match (w.config.modes).lookup mode_name with
  | none => some (w, [])
  | some path =>
    if w.status.current_mode = mode_name then some (w, [])
    else
      match env.modeFiles path with
      | none => none
      | some proto =>
        match LoadMode proto with
        | none => none
        | some newMode =>
          let status' : HMIStatus :=
            { w.status with
              current_mode := mode_name
              modules := newMode.modules.map (fun kv => (kv.1, false))
              monitored_components :=
                newMode.monitored_components.map (fun c => (c, defaultSummary)) }
          some ({ w with status := status', current_mode := newMode, status_changed := true },
                ResetMode w ++ [Event.guardedWrite, Event.kvPut currentModeDbKey mode_name])

/-- `HMIWorker::ChangeMap`.  The same-name early return happens inside
the write lock, hence still records a guarded section. -/
def ChangeMap (w : WorkerState) (map_name : String) : WorkerState × List Event :=
  match (w.config.maps).lookup map_name with
  | none => (w, [])
  | some map_dir =>
    if w.status.current_map = map_name then (w, [Event.guardedWrite])
    else
      let w' : WorkerState :=
        { w with status := { w.status with current_map := map_name }, status_changed := true }
      (w', [Event.guardedWrite, Event.setGlobalFlag "map_dir" map_dir] ++ ResetMode w')

/-- `HMIWorker::ChangeVehicle`.  `none` models the process abort of
`CHECK(VehicleManager::Instance()->UseVehicle(*vehicle_dir))`. -/
def ChangeVehicle (env : Env) (w : WorkerState) (vehicle_name : String) :
    Option (WorkerState × List Event) :=
  match (w.config.vehicles).lookup vehicle_name with
  | none => some (w, [])
  | some vehicle_dir =>
    if w.status.current_vehicle = vehicle_name then some (w, [Event.guardedWrite])
    else
      let w' : WorkerState :=
        { w with status := { w.status with current_vehicle := vehicle_name },
                 status_changed := true }
      if env.useVehicleOk vehicle_dir then
        some (w', [Event.guardedWrite] ++ ResetMode w' ++ [Event.useVehicle vehicle_dir])
      else none

/-!  Driving-Mode Transition Protocol (`HMIWorker::ChangeDrivingMode`). -/

/-- Result of the transition protocol: the boolean return value, or a
process abort via `AFATAL` in the action-selection switch. -/
inductive DMResult
  | success
  | failure
  | fatalAbort
deriving DecidableEq, Repr

/-- `kMaxTries`. -/
def kMaxTries : Nat := 3

/-- `kTryInterval` in milliseconds. -/
def kTryIntervalMs : Nat := 500

/-- The pad action selected for each target mode; `none` hits the
`AFATAL` default branch. -/
def actionFor : DrivingMode → Option DrivingAction
  | DrivingMode.COMPLETE_MANUAL => some DrivingAction.RESET
  | DrivingMode.COMPLETE_AUTO_DRIVE => some DrivingAction.START
  | _ => none

/-- The retry loop: up to `n` times, send the pad message, sleep the
settle interval, observe the chassis reader; succeed as soon as the
observed driving mode equals the target, treat an empty reader as a
failed attempt.  Returns (reached target?, next sample index, trace). -/
def tryLoop (env : Env) (action : DrivingAction) (target : DrivingMode) :
    Nat → Nat → Bool × Nat × List Event
  | idx, 0 => (false, idx, [])
  | idx, n + 1 =>
    let evs : List Event :=
      [Event.sendPad action, Event.sleep kTryIntervalMs, Event.observe (env.chassisFeed idx)]
    match env.chassisFeed idx with
    | some m =>
      if m = target then (true, idx + 1, evs)
      else
        let t := tryLoop env action target (idx + 1) n
        (t.1, t.2.1, evs ++ t.2.2)
    | none =>
      let t := tryLoop env action target (idx + 1) n
      (t.1, t.2.1, evs ++ t.2.2)

/-- The per-target part of `ChangeDrivingMode` (action-selection switch
followed by the retry loop). -/
def attemptPhase (env : Env) (target : DrivingMode) (idx : Nat) :
    DMResult × Nat × List Event :=
  match actionFor target with
  | none => (DMResult.fatalAbort, idx, [])
  | some action =>
    let t := tryLoop env action target idx kMaxTries
    (if t.1 then DMResult.success else DMResult.failure, t.2.1, t.2.2)

/-- `HMIWorker::ChangeDrivingMode`.  The recursion in the source only
reaches depth 1 (the recursive call's argument is `COMPLETE_MANUAL`, for
which the guard is false), so it is unfolded here: for a non-manual
target, first run the manual phase; if it fails return failure,
otherwise run the phase for the requested target.  The function never
touches the status record. -/
def ChangeDrivingMode (env : Env) (idx : Nat) (mode : DrivingMode) :
    DMResult × Nat × List Event :=
  if mode = DrivingMode.COMPLETE_MANUAL then attemptPhase env mode idx
  else
    let m := attemptPhase env DrivingMode.COMPLETE_MANUAL idx
    match m.1 with
    | DMResult.success =>
      let t := attemptPhase env mode m.2.1
      (t.1, t.2.1, m.2.2 ++ t.2.2)
    | _ => (DMResult.failure, m.2.1, m.2.2)

/-!  Action Dispatcher (`HMIWorker::Trigger`, both overloads). -/

/-- Action enum of the `HMIAction` proto. -/
inductive HMIAction
  | NONE
  | SETUP_MODE
  | CHANGE_MODE
  | CHANGE_MAP
  | CHANGE_VEHICLE
  | START_MODULE
  | STOP_MODULE
  | ENTER_AUTO_MODE
  | DISENGAGE
  | RESET_MODE
deriving DecidableEq, Repr

/-- Boolean the worker returns for a protocol result (dead for
`fatalAbort`, which aborts the process). -/
def DMResult.toBool : DMResult → Bool
  | DMResult.success => true
  | _ => false

/-- `bool HMIWorker::Trigger(HMIAction)`: the value-less dispatcher.
`none` propagates a process abort from `ChangeDrivingMode`. -/
def Trigger1 (env : Env) (w : WorkerState) (idx : Nat) (action : HMIAction) :
    Option (WorkerState × Bool × List Event) :=
  match action with
  | HMIAction.NONE => some (w, true, [])
  | HMIAction.SETUP_MODE => some (w, true, SetupMode w)
  | HMIAction.ENTER_AUTO_MODE =>
    let r := ChangeDrivingMode env idx DrivingMode.COMPLETE_AUTO_DRIVE
    match r.1 with
    | DMResult.fatalAbort => none
    | _ => some (w, r.1.toBool, r.2.2)
  | HMIAction.DISENGAGE =>
    let r := ChangeDrivingMode env idx DrivingMode.COMPLETE_MANUAL
    match r.1 with
    | DMResult.fatalAbort => none
    | _ => some (w, r.1.toBool, r.2.2)
  | HMIAction.RESET_MODE => some (w, true, ResetMode w)
  | _ => some (w, false, [])

/-- `bool HMIWorker::Trigger(HMIAction, string)`: the valued dispatcher.
`none` propagates a process abort from `ChangeMode`/`ChangeVehicle`. -/
def Trigger2 (env : Env) (w : WorkerState) (action : HMIAction) (value : String) :
    Option (WorkerState × Bool × List Event) :=
  match action with
  | HMIAction.CHANGE_MODE => (ChangeMode env w value).map (fun p => (p.1, true, p.2))
  | HMIAction.CHANGE_MAP =>
    let p := ChangeMap w value
    some (p.1, true, p.2)
  | HMIAction.CHANGE_VEHICLE => (ChangeVehicle env w value).map (fun p => (p.1, true, p.2))
  | HMIAction.START_MODULE => some (w, true, StartModule w value)
  | HMIAction.STOP_MODULE => some (w, true, StopModule w value)
  | _ => some (w, false, [])

/-!  SystemStatus callback and fingerprint-based change detection. -/

/-- The fields of a `SystemStatus` message this callback reads.  The
realtime check (a timestamp comparison against wall-clock time, or the
simulation flag) is collapsed to its boolean outcome. -/
structure SystemStatusMsg where
  is_realtime : Bool
  hmi_modules : List (String × ComponentSummary)
  components : List (String × ComponentSummary)

/-- The pure status-record update of the SystemStatus reader callback:
for a realtime message, each module flag becomes "reported and OK"; each
monitored component takes the reported summary, or an UNKNOWN
"not reported" summary. -/
def applySystemStatus (s : HMIStatus) (msg : SystemStatusMsg) : HMIStatus :=
  let s1 : HMIStatus :=
    if msg.is_realtime then
      { s with
        modules := s.modules.map (fun kv =>
          (kv.1,
           match (msg.hmi_modules).lookup kv.1 with
           | some cs => cs.status == CStatus.OK
           | none => false)) }
    else s
  { s1 with
    monitored_components := s1.monitored_components.map (fun kv =>
      (kv.1,
       match (msg.components).lookup kv.1 with
       | some cs => cs
       | none =>
         { status := CStatus.UNKNOWN, message := "Status not reported by Monitor." })) }

/-- Polynomial hash of a string, an ingredient of the modelled
fingerprint. -/
def strFp (s : String) : Nat :=
  s.foldl (fun h c => h * 131 + c.toNat) 17

/-- Hash of a component summary. -/
def summaryFp (c : ComponentSummary) : Nat :=
  (match c.status with
   | CStatus.UNKNOWN => 0
   | CStatus.OK => 1
   | CStatus.WARN => 2
   | CStatus.ERROR => 3
   | CStatus.FATAL => 4) * 1000003 + strFp c.message

/-- Hash combinator for lists. -/
def listFp (l : List Nat) : Nat :=
  l.foldl (fun h x => h * 1000003 + x) 3

/-- Modelled from the spec: `apollo::common::util::MessageFingerprint`
(modules/common/util, not under src/) is described by the spec only as a
deterministic structural fingerprint of the record, used to detect
change cheaply.  We model it as a deterministic structural hash of every
modelled field. -/
def MessageFingerprint (s : HMIStatus) : Nat :=
  listFp
    [strFp s.current_mode, strFp s.current_map, strFp s.current_vehicle,
     listFp (s.modules.map (fun kv => strFp kv.1 * 2 + (if kv.2 then 1 else 0))),
     listFp (s.monitored_components.map (fun kv => strFp kv.1 * 1000003 + summaryFp kv.2))]

/-- The SystemStatus reader callback: apply the update under the write
lock, then set the dirty flag only when the new fingerprint differs from
the last observed one (and remember it). -/
def OnSystemStatus (w : WorkerState) (msg : SystemStatusMsg) : WorkerState :=
  let status' := applySystemStatus w.status msg
  let fp := MessageFingerprint status'
  if w.last_status_fingerprint ≠ fp then
    { w with status := status', status_changed := true, last_status_fingerprint := fp }
  else
    { w with status := status' }

/-!  Status Update Loop (`HMIWorker::StatusUpdateThreadLoop`). -/

/-- `FLAGS_status_publish_interval` (seconds). -/
def statusPublishInterval : ℚ := 5

/-- Initial value of the function-local `static double next_update_time`. -/
def initNextUpdateTime : ℚ := 0

/-- One tick of the status update loop after the sleep: read-and-clear
the dirty flag under the lock; if it was set, publish; otherwise publish
only when `now` has reached the heartbeat deadline, advancing the
deadline to `now` plus the publish interval.  Returns the state with the
flag cleared, the new deadline, and whether this tick published. -/
def StatusLoopTick (w : WorkerState) (nextUpdateTime now : ℚ) :
    WorkerState × ℚ × Bool :=
  let changed := w.status_changed
  let w' : WorkerState := { w with status_changed := false }
  if changed then (w', nextUpdateTime, true)
  else if now < nextUpdateTime then (w', nextUpdateTime, false)
  else (w', now + statusPublishInterval, true)

/-- The trace of one failed attempt run of the retry loop starting at
sample index `idx`: `n` times send, sleep, observe. -/
def failTrace (env : Env) (action : DrivingAction) : Nat → Nat → List Event
  | _, 0 => []
  | idx, n + 1 =>
    [Event.sendPad action, Event.sleep kTryIntervalMs, Event.observe (env.chassisFeed idx)]
      ++ failTrace env action (idx + 1) n

/-!  Concrete fixtures used by witnesses and counterexamples. -/

/-- A concrete derived module. -/
def demoModule : Module :=
  { start_command := "nohup mainboard -d /apollo/x.dag &"
    stop_command := "pkill -f \"/apollo/x.dag\""
    required_for_safety := true
    command_keywords := ["mainboard", "/apollo/x.dag"] }

/-- A concrete status record. -/
def demoStatus : HMIStatus :=
  { current_mode := "Mkz Standard Debug"
    current_map := "Sunnyvale"
    current_vehicle := "Mkz Example"
    modules := [("Camera", false)]
    monitored_components := [("GPS", defaultSummary)] }

/-- A concrete configuration. -/
def demoConfig : HMIConfig :=
  { modes := [("Mkz Standard Debug", "/apollo/modes/mkz_standard_debug.pb.txt"),
              ("Navigation", "/apollo/modes/navigation.pb.txt")]
    maps := [("Sunnyvale", "/apollo/maps/sunnyvale")]
    vehicles := [("Mkz Example", "/apollo/vehicles/mkz_example")] }

/-- A concrete loaded mode. -/
def demoMode : HMIMode := { modules := [("Camera", demoModule)], monitored_components := ["GPS"] }

/-- A concrete worker state. -/
def demoWorker : WorkerState :=
  { config := demoConfig, status := demoStatus, current_mode := demoMode,
    status_changed := false, last_status_fingerprint := 0 }

/-- A concrete parseable mode proto. -/
def demoProto : HMIModeProto :=
  { cyber_modules := [("Planning",
      { dag_files := ["/apollo/planning.dag"], process_group := "", required_for_safety := false })]
    modules := []
    monitored_components := ["CanBus"] }

/-- A concrete environment: the Navigation mode file parses to
`demoProto`, the chassis always reports `COMPLETE_MANUAL`, and the
vehicle-profile switch succeeds. -/
def demoEnv : Env :=
  { modeFiles := fun p => if p = "/apollo/modes/navigation.pb.txt" then some demoProto else none
    chassisFeed := fun _ => some DrivingMode.COMPLETE_MANUAL
    useVehicleOk := fun _ => true }

/-- Like `demoEnv` but the vehicle-profile switch fails. -/
def demoEnvBad : Env :=
  { modeFiles := demoEnv.modeFiles
    chassisFeed := demoEnv.chassisFeed
    useVehicleOk := fun _ => false }

/-- Like `demoEnv` but the chassis reader never has a message. -/
def demoEnvSilent : Env :=
  { modeFiles := demoEnv.modeFiles
    chassisFeed := fun _ => none
    useVehicleOk := fun _ => true }

/-- A worker whose current vehicle differs from the known vehicle
"Mkz Example". -/
def demoWorkerOtherVehicle : WorkerState :=
  { demoWorker with status := { demoStatus with current_vehicle := "Other" } }

/-- The module derived from `demoProto`'s Planning entry. -/
def navModule : Module :=
  { start_command := "nohup mainboard -d /apollo/planning.dag &"
    stop_command := "pkill -f \"/apollo/planning.dag\""
    required_for_safety := false
    command_keywords := ["mainboard", "/apollo/planning.dag"] }

/-- The loaded mode `LoadMode` produces from `demoProto`. -/
def navMode : HMIMode :=
  { modules := [("Planning", navModule)], monitored_components := ["CanBus"] }

/-- A status record with no monitored components, for the C7 witness. -/
def fpStatus : HMIStatus :=
  { current_mode := "M", current_map := "", current_vehicle := "",
    modules := [], monitored_components := [] }

/-- A SystemStatus message that rewrites nothing of `fpStatus`. -/
def fpMsg : SystemStatusMsg := { is_realtime := false, hmi_modules := [], components := [] }

/-- A worker whose remembered fingerprint matches `fpStatus`. -/
def fpWorker : WorkerState :=
  { config := demoConfig, status := fpStatus, current_mode := demoMode,
    status_changed := false, last_status_fingerprint := MessageFingerprint fpStatus }

/-!  Helper lemmas. -/

/-- The default `Module` entry inserted by `LookupOrInsert`. -/
theorem default_module_eq :
    (default : Module) =
      { start_command := "", stop_command := "", required_for_safety := false,
        command_keywords := [] } := rfl

/-- Stopping the current mode's modules issues shell commands only,
never a write-guarded status mutation. -/
theorem resetMode_no_guardedWrite (w : WorkerState) :
    (ResetMode w).count Event.guardedWrite = 0 := by
  simp [ResetMode, List.count_eq_zero, List.mem_map]

/-- When no observed sample ever equals the target mode, the retry loop
runs all `n` attempts (send, settle sleep, sample each time, an empty
reader counting as a failed attempt), consumes `n` samples and reports
failure. -/
theorem tryLoop_never_target (env : Env) (action : DrivingAction) (target : DrivingMode)
    (hfb : ∀ j, env.chassisFeed j ≠ some target) :
    ∀ n idx, tryLoop env action target idx n = (false, idx + n, failTrace env action idx n) := by
  intro n
  induction n with
  | zero => intro idx; simp [tryLoop, failTrace]
  | succ k ih =>
    intro idx
    have harith : idx + 1 + k = idx + (k + 1) := by omega
    cases hc : env.chassisFeed idx with
    | none =>
      simp only [tryLoop, failTrace, hc, ih (idx + 1), harith]
    | some m =>
      have hm : ¬m = target := fun e => hfb idx (by rw [hc, e])
      simp only [tryLoop, failTrace, hc, hm, if_false, ih (idx + 1), harith]

/-!  Claim theorems. -/

/-- C6: `changeMode(X)` when X is the current mode is an idempotent
no-op: the worker state (status record and dirty flag included) is
returned unchanged and the event trace is empty, so no module start/stop
command is invoked and no mutation occurs. -/
theorem changeMode_current_mode_noop (env : Env) (w : WorkerState) (name path : String)
    (hknown : (w.config.modes).lookup name = some path)
    (hsame : w.status.current_mode = name) :
    ChangeMode env w name = some (w, []) := by
  simp [ChangeMode, hknown, hsame]

/-- Witness for C6 at a concrete known, current mode name. -/
theorem changeMode_current_mode_noop_witness :
    ChangeMode demoEnv demoWorker "Mkz Standard Debug" = some (demoWorker, []) :=
  changeMode_current_mode_noop demoEnv demoWorker "Mkz Standard Debug"
    "/apollo/modes/mkz_standard_debug.pb.txt" rfl rfl

/-- C8: every enumerated action variant without a handler in the
respective `Trigger` overload returns `false` (the valued overload has
no handler for NONE/SETUP_MODE/ENTER_AUTO_MODE/DISENGAGE/RESET_MODE,
the value-less one none for the five valued actions), while the no-op
action NONE succeeds trivially. -/
theorem trigger_unhandled_actions (env : Env) (w : WorkerState) (idx : Nat) (value : String) :
    Trigger1 env w idx HMIAction.NONE = some (w, true, []) ∧
    Trigger1 env w idx HMIAction.CHANGE_MODE = some (w, false, []) ∧
    Trigger1 env w idx HMIAction.CHANGE_MAP = some (w, false, []) ∧
    Trigger1 env w idx HMIAction.CHANGE_VEHICLE = some (w, false, []) ∧
    Trigger1 env w idx HMIAction.START_MODULE = some (w, false, []) ∧
    Trigger1 env w idx HMIAction.STOP_MODULE = some (w, false, []) ∧
    Trigger2 env w HMIAction.NONE value = some (w, false, []) ∧
    Trigger2 env w HMIAction.SETUP_MODE value = some (w, false, []) ∧
    Trigger2 env w HMIAction.ENTER_AUTO_MODE value = some (w, false, []) ∧
    Trigger2 env w HMIAction.DISENGAGE value = some (w, false, []) ∧
    Trigger2 env w HMIAction.RESET_MODE value = some (w, false, []) :=
  ⟨rfl, rfl, rfl, rfl, rfl, rfl, rfl, rfl, rfl, rfl, rfl⟩

/-- C9: for the target `AUTO_STEER_ONLY` (neither COMPLETE_MANUAL nor
COMPLETE_AUTO_DRIVE) with chassis feedback that lets the manual
sub-transition succeed, `ChangeDrivingMode` reaches the fatal-severity
check in the action-selection switch (process abort) instead of
returning a failure result. -/
theorem changeDrivingMode_other_target_fatal :
    (attemptPhase demoEnv DrivingMode.COMPLETE_MANUAL 0).1 = DMResult.success ∧
    (ChangeDrivingMode demoEnv 0 DrivingMode.AUTO_STEER_ONLY).1 = DMResult.fatalAbort := by
  constructor <;> rfl

/-- C10: a tick whose dirty flag is set publishes without touching the
heartbeat deadline, so on the first tick at which the dirty flag is not
set the deadline still holds its initial value 0; that tick publishes
immediately (any nonnegative `now` is past the zero deadline) and only
then advances the deadline to `now` plus the publish interval. -/
theorem statusLoop_first_clean_tick_heartbeat (w wd : WorkerState) (nextU now : ℚ)
    (hdirty : wd.status_changed = true) (hclean : w.status_changed = false)
    (hnow : 0 ≤ now) :
    StatusLoopTick wd nextU now = ({ wd with status_changed := false }, nextU, true) ∧
    StatusLoopTick w initNextUpdateTime now =
      ({ w with status_changed := false }, now + statusPublishInterval, true) := by
  constructor
  · simp [StatusLoopTick, hdirty]
  · simp [StatusLoopTick, hclean, initNextUpdateTime, not_lt.mpr hnow]

/-- Witness for C10 at concrete states and time 7/2 seconds. -/
theorem statusLoop_first_clean_tick_heartbeat_witness :
    StatusLoopTick { demoWorker with status_changed := true } initNextUpdateTime (7 / 2) =
      ({ { demoWorker with status_changed := true } with status_changed := false },
       initNextUpdateTime, true) ∧
    StatusLoopTick demoWorker initNextUpdateTime (7 / 2) =
      ({ demoWorker with status_changed := false }, 7 / 2 + statusPublishInterval, true) :=
  statusLoop_first_clean_tick_heartbeat demoWorker { demoWorker with status_changed := true }
    initNextUpdateTime (7 / 2) rfl rfl (by norm_num)

/-- C7: when the SystemStatus callback's mutation leaves the record with
the last observed fingerprint (it only rewrote fields to their existing
values), the dirty flag is not set and the remembered fingerprint is
unchanged. -/
theorem systemStatus_same_fingerprint_keeps_dirty_flag (w : WorkerState) (msg : SystemStatusMsg)
    (hfp : MessageFingerprint (applySystemStatus w.status msg) = w.last_status_fingerprint) :
    (OnSystemStatus w msg).status_changed = w.status_changed ∧
    (OnSystemStatus w msg).last_status_fingerprint = w.last_status_fingerprint := by
  simp [OnSystemStatus, hfp]

/-- Witness for C7 at a concrete identity-rewriting mutation. -/
theorem systemStatus_same_fingerprint_keeps_dirty_flag_witness :
    (OnSystemStatus fpWorker fpMsg).status_changed = fpWorker.status_changed ∧
    (OnSystemStatus fpWorker fpMsg).last_status_fingerprint = fpWorker.last_status_fingerprint :=
  systemStatus_same_fingerprint_keeps_dirty_flag fpWorker fpMsg
    (congrArg MessageFingerprint
      (rfl : applySystemStatus fpWorker.status fpMsg = fpStatus))

/-- C4: a cyber-module entry with dag files `[a, b]` and a non-empty
process group `g` derives a start command of the fixed launcher
invocation, the group flag with `g`, one `-d` flag per dag file in
order, and a trailing `&`; a stop command that kill-by-patterns only the
first dag file `a`; and the liveness keywords `mainboard` and `a`. -/
theorem loadMode_commands (n a b g : String) (r : Bool) (hg : g ≠ "") :
    LoadMode
      { cyber_modules :=
          [(n, { dag_files := [a, b], process_group := g, required_for_safety := r })]
        modules := [], monitored_components := [] } =
    some
      { modules :=
          [(n, { start_command :=
                   "nohup mainboard" ++ " -p " ++ g ++ " -d " ++ a ++ " -d " ++ b ++ " &"
                 stop_command := "pkill -f \"" ++ a ++ "\""
                 required_for_safety := r
                 command_keywords := ["mainboard", a] })]
        monitored_components := [] } := by
  simp [LoadMode, translateModules, updateOrInsert, translateOne, startCommand,
    stopCommand, appendDagFlags, default_module_eq, hg]

/-- Witness for C4 at concrete group and dag files. -/
theorem loadMode_commands_witness :
    LoadMode
      { cyber_modules :=
          [("Planning", { dag_files := ["/apollo/a.dag", "/apollo/b.dag"],
                          process_group := "compute", required_for_safety := true })]
        modules := [], monitored_components := [] } =
    some
      { modules :=
          [("Planning",
            { start_command := "nohup mainboard" ++ " -p " ++ "compute" ++ " -d " ++
                "/apollo/a.dag" ++ " -d " ++ "/apollo/b.dag" ++ " &"
              stop_command := "pkill -f \"" ++ "/apollo/a.dag" ++ "\""
              required_for_safety := true
              command_keywords := ["mainboard", "/apollo/a.dag"] })]
        monitored_components := [] } :=
  loadMode_commands "Planning" "/apollo/a.dag" "/apollo/b.dag" "compute" true (by decide)

/-- C1 counterexample: "Foo" is not a key of the configuration's modes
mapping; the status record is indeed unchanged, but the externally
triggered `Trigger(CHANGE_MODE, "Foo")` reports success (true) instead
of a failure indication. -/
theorem trigger_changeMode_unknown_counterexample :
    (demoWorker.config.modes).lookup "Foo" = none ∧
    Trigger2 demoEnv demoWorker HMIAction.CHANGE_MODE "Foo" =
      some (demoWorker, true, []) :=
  ⟨rfl, rfl⟩

/-- C1 (amended): for an unknown mode name the status record is left
unchanged and the operation has no effect (the error is only logged):
`ChangeMode` returns without doing anything and the externally triggered
dispatcher reports success (true) rather than failure. -/
theorem changeMode_unknown_noop_reports_success (env : Env) (w : WorkerState) (name : String)
    (hunknown : (w.config.modes).lookup name = none) :
    ChangeMode env w name = some (w, []) ∧
    Trigger2 env w HMIAction.CHANGE_MODE name = some (w, true, []) := by
  have h : ChangeMode env w name = some (w, []) := by simp [ChangeMode, hunknown]
  exact ⟨h, by simp [Trigger2, h]⟩

/-- Witness for the amended C1 at a concrete unknown mode name. -/
theorem changeMode_unknown_noop_reports_success_witness :
    ChangeMode demoEnv demoWorker "Foo" = some (demoWorker, []) ∧
    Trigger2 demoEnv demoWorker HMIAction.CHANGE_MODE "Foo" = some (demoWorker, true, []) :=
  changeMode_unknown_noop_reports_success demoEnv demoWorker "Foo" rfl

/-- C5: an unknown vehicle name is a logged no-op; for a known vehicle
different from the current one, `ChangeVehicle` updates the
current-vehicle field inside the guarded mutation, resets the current
mode's modules, and invokes the vehicle-profile switch; the process
aborts (fatal `CHECK`) precisely when that collaborator reports
failure. -/
theorem changeVehicle_policy (env : Env) (w : WorkerState) (name : String) :
    ((w.config.vehicles).lookup name = none → ChangeVehicle env w name = some (w, [])) ∧
    (∀ dir, (w.config.vehicles).lookup name = some dir →
      ¬w.status.current_vehicle = name →
      ((ChangeVehicle env w name = none ↔ env.useVehicleOk dir = false) ∧
       (env.useVehicleOk dir = true →
         ChangeVehicle env w name =
           some ({ w with status := { w.status with current_vehicle := name },
                          status_changed := true },
                 [Event.guardedWrite] ++ ResetMode w ++ [Event.useVehicle dir])))) := by
  constructor
  · intro hnone; simp [ChangeVehicle, hnone]
  · intro dir hdir hne
    cases hok : env.useVehicleOk dir with
    | false =>
      refine ⟨by simp [ChangeVehicle, hdir, hne, hok], ?_⟩
      intro hcontr
      simp at hcontr
    | true =>
      refine ⟨by simp [ChangeVehicle, hdir, hne, hok], ?_⟩
      intro _
      simp [ChangeVehicle, hdir, hne, hok, ResetMode]

/-- Witness for C5: a concrete fatal-abort run (profile switch fails)
and a concrete successful run. -/
theorem changeVehicle_policy_witness :
    ChangeVehicle demoEnvBad demoWorkerOtherVehicle "Mkz Example" = none ∧
    ChangeVehicle demoEnv demoWorkerOtherVehicle "Mkz Example" =
      some ({ demoWorkerOtherVehicle with
              status := { demoWorkerOtherVehicle.status with current_vehicle := "Mkz Example" },
              status_changed := true },
            [Event.guardedWrite] ++ ResetMode demoWorkerOtherVehicle ++
              [Event.useVehicle "/apollo/vehicles/mkz_example"]) :=
  ⟨((changeVehicle_policy demoEnvBad demoWorkerOtherVehicle "Mkz Example").2
      "/apollo/vehicles/mkz_example" rfl (by decide)).1.mpr rfl,
   ((changeVehicle_policy demoEnv demoWorkerOtherVehicle "Mkz Example").2
      "/apollo/vehicles/mkz_example" rfl (by decide)).2 rfl⟩

/-- C3: changing to a known, non-current mode rebuilds the status
record's module map so its keys are exactly the loaded descriptor's
module names, all initialized to not-running, and the
monitored-component map so its keys are exactly the descriptor's
monitored components, all with the default (empty) summary — inside
exactly one write-guarded mutation of the status store. -/
theorem changeMode_rebuilds_status_maps (env : Env) (w : WorkerState)
    (name path : String) (proto : HMIModeProto) (newMode : HMIMode)
    (hknown : (w.config.modes).lookup name = some path)
    (hdiff : ¬w.status.current_mode = name)
    (hfile : env.modeFiles path = some proto)
    (hload : LoadMode proto = some newMode) :
    ∃ w' evs, ChangeMode env w name = some (w', evs) ∧
      w'.status.current_mode = name ∧
      w'.status.modules.map Prod.fst = newMode.modules.map Prod.fst ∧
      (∀ kv ∈ w'.status.modules, kv.2 = false) ∧
      w'.status.monitored_components.map Prod.fst = newMode.monitored_components ∧
      (∀ kv ∈ w'.status.monitored_components, kv.2 = defaultSummary) ∧
      w'.current_mode = newMode ∧
      evs.count Event.guardedWrite = 1 := by
  have hcm : ChangeMode env w name =
      some ({ w with
              status := { w.status with
                current_mode := name
                modules := newMode.modules.map (fun kv => (kv.1, false))
                monitored_components :=
                  newMode.monitored_components.map (fun c => (c, defaultSummary)) }
              current_mode := newMode
              status_changed := true },
            ResetMode w ++ [Event.guardedWrite, Event.kvPut currentModeDbKey name]) := by
    simp [ChangeMode, hknown, hdiff, hfile, hload]
  refine ⟨_, _, hcm, rfl, ?_, ?_, ?_, ?_, rfl, ?_⟩
  · simp [List.map_map]
  · simp
  · have hcomp : (Prod.fst ∘ fun c : String => (c, defaultSummary)) = id := rfl
    simp [List.map_map, hcomp]
  · simp
  · simp [List.count_append, List.count_cons, resetMode_no_guardedWrite]

/-- Witness for C3: switching the demo worker to the Navigation mode. -/
theorem changeMode_rebuilds_status_maps_witness :
    ∃ w' evs, ChangeMode demoEnv demoWorker "Navigation" = some (w', evs) ∧
      w'.status.current_mode = "Navigation" ∧
      w'.status.modules.map Prod.fst = navMode.modules.map Prod.fst ∧
      (∀ kv ∈ w'.status.modules, kv.2 = false) ∧
      w'.status.monitored_components.map Prod.fst = navMode.monitored_components ∧
      (∀ kv ∈ w'.status.monitored_components, kv.2 = defaultSummary) ∧
      w'.current_mode = navMode ∧
      evs.count Event.guardedWrite = 1 :=
  changeMode_rebuilds_status_maps demoEnv demoWorker "Navigation"
    "/apollo/modes/navigation.pb.txt" demoProto navMode rfl (by decide) rfl rfl

/-- C2: entering AUTO_DRIVE when the chassis feedback never reports
AUTO_DRIVE: after the mandatory manual sub-transition succeeds, the
protocol makes exactly `kMaxTries = 3` send-wait-sample attempts, each
attempt separated from its sample by the fixed 500 ms settle interval
(an empty chassis reader counting as a failed attempt), then the
externally triggered operation returns failure, and the worker state —
status record and dirty flag included — is untouched. -/
theorem trigger_enter_auto_never_auto (env : Env) (w : WorkerState) (idx : Nat)
    (hfb : ∀ j, env.chassisFeed j ≠ some DrivingMode.COMPLETE_AUTO_DRIVE)
    (hman : (attemptPhase env DrivingMode.COMPLETE_MANUAL idx).1 = DMResult.success) :
    Trigger1 env w idx HMIAction.ENTER_AUTO_MODE =
      some (w, false,
        (attemptPhase env DrivingMode.COMPLETE_MANUAL idx).2.2 ++
          failTrace env DrivingAction.START
            (attemptPhase env DrivingMode.COMPLETE_MANUAL idx).2.1 kMaxTries) ∧
    (∀ i, failTrace env DrivingAction.START i kMaxTries =
      [Event.sendPad DrivingAction.START, Event.sleep 500, Event.observe (env.chassisFeed i),
       Event.sendPad DrivingAction.START, Event.sleep 500, Event.observe (env.chassisFeed (i + 1)),
       Event.sendPad DrivingAction.START, Event.sleep 500,
       Event.observe (env.chassisFeed (i + 2))]) := by
  have hauto : ∀ i, attemptPhase env DrivingMode.COMPLETE_AUTO_DRIVE i =
      (DMResult.failure, i + kMaxTries, failTrace env DrivingAction.START i kMaxTries) := by
    intro i
    simp [attemptPhase, actionFor,
      tryLoop_never_target env DrivingAction.START DrivingMode.COMPLETE_AUTO_DRIVE hfb kMaxTries i]
  have hcdm : ChangeDrivingMode env idx DrivingMode.COMPLETE_AUTO_DRIVE =
      (DMResult.failure,
       (attemptPhase env DrivingMode.COMPLETE_MANUAL idx).2.1 + kMaxTries,
       (attemptPhase env DrivingMode.COMPLETE_MANUAL idx).2.2 ++
         failTrace env DrivingAction.START
           (attemptPhase env DrivingMode.COMPLETE_MANUAL idx).2.1 kMaxTries) := by
    simp [ChangeDrivingMode, hman, hauto]
  refine ⟨?_, fun i => rfl⟩
  simp [Trigger1, hcdm, DMResult.toBool]

/-- Witness for C2: the chassis always reports COMPLETE_MANUAL, so the
manual phase succeeds on its first attempt and AUTO_DRIVE is never
observed. -/
theorem trigger_enter_auto_never_auto_witness :
    Trigger1 demoEnv demoWorker 0 HMIAction.ENTER_AUTO_MODE =
      some (demoWorker, false,
        (attemptPhase demoEnv DrivingMode.COMPLETE_MANUAL 0).2.2 ++
          failTrace demoEnv DrivingAction.START
            (attemptPhase demoEnv DrivingMode.COMPLETE_MANUAL 0).2.1 kMaxTries) ∧
    (∀ i, failTrace demoEnv DrivingAction.START i kMaxTries =
      [Event.sendPad DrivingAction.START, Event.sleep 500,
       Event.observe (demoEnv.chassisFeed i),
       Event.sendPad DrivingAction.START, Event.sleep 500,
       Event.observe (demoEnv.chassisFeed (i + 1)),
       Event.sendPad DrivingAction.START, Event.sleep 500,
       Event.observe (demoEnv.chassisFeed (i + 2))]) :=
  trigger_enter_auto_never_auto demoEnv demoWorker 0 (fun j => by simp [demoEnv]) rfl

end HMIW
